import Mathlib

/-!
Verification of the Glamify scraper example
(src/examples/glamify_scraper_example.py).

The repository contains two components:
- `BeautyProductSpider.parse`: given a fetched page, yields one record per
  matched product element, then at most one pagination continuation.
- `AffiliateLinkGenerator.generate_link`: a per-platform URL rewriting rule.

The embedding below translates those routines into Lean. A parsed page is
represented by the results of the CSS selector queries the code performs:
each `.get()` call on a sub-selector yields an optional string (the match,
or `none` when the selector matches nothing).
-/

set_option autoImplicit false

namespace Glamify

/-! ### Model of Python `urllib.parse.urljoin` (used via `response.urljoin`
and `response.follow`).

Python semantics, restricted to the URL shapes exercised here:
`urljoin(base, url)` returns `base` when `url` is `None` or the empty string
(the `if not url: return base` branch of the CPython source); returns `url`
unchanged when `url` carries its own http/https scheme; prefixes the scheme
of `base` for scheme-relative `//...` references; prefixes scheme and host
of `base` for root-relative `/...` references; otherwise replaces the last
path segment of `base`. Dot-segment normalization and query/fragment
handling are not modelled (no claim depends on them). -/

/-- Whether the first character list starts with the second. -/
def charsStartWith : List Char → List Char → Bool
  | _, [] => true
  | [], _ :: _ => false
  | c :: cs, p :: ps => c == p && charsStartWith cs ps

/-- Whether the string `s` starts with the string `p`. -/
def strStartsWith (s p : String) : Bool :=
  charsStartWith s.data p.data

/-- Split a character list at the first occurrence of the scheme
delimiter `://`, returning the parts before and after it. -/
def splitScheme : List Char → Option (List Char × List Char)
  | [] => none
  | ':' :: '/' :: '/' :: rest => some ([], rest)
  | c :: rest =>
    match splitScheme rest with
    | none => none
    | some (a, b) => some (c :: a, b)

/-- The part of a character list before its first slash (the host part of
a host-and-path string). -/
def takeUntilSlash : List Char → List Char
  | [] => []
  | c :: cs => if c = '/' then [] else c :: takeUntilSlash cs

/-- Everything up to and including the last slash (the directory of a
host-and-path string); when no slash occurs, the whole list followed by a
slash. -/
def dropLastSegment (cs : List Char) : List Char :=
  match (cs.reverse.dropWhile (fun c => c != '/')) with
  | [] => cs ++ ['/']
  | r => r.reverse

/-- Resolve the reference string `url` against `base`, following the
CPython `urljoin` algorithm on the shapes described above. -/
def urljoinStr (base url : String) : String :=
  if url = "" then base
  else if strStartsWith url "http://" || strStartsWith url "https://" then url
  else
    match splitScheme base.data with
    | some (scheme, hostPath) =>
      if strStartsWith url "//" then String.mk scheme ++ ":" ++ url
      else if strStartsWith url "/" then
        String.mk scheme ++ "://" ++ String.mk (takeUntilSlash hostPath) ++ url
      else
        String.mk scheme ++ "://" ++ String.mk (dropLastSegment hostPath) ++ url
    | none => url

/-- `response.urljoin(x)` where `x` is the result of a `.get()` call:
CPython returns the base URL when the argument is `None`
(`if not url: return base`). -/
def urljoin (base : String) (url : Option String) : String :=
  match url with
  | none => base
  | some u => urljoinStr base u

/-! ### Extractor (`BeautyProductSpider.parse`) -/

/-- One matched `.product-item` element, represented by the results of the
eight sub-selector `.get()` calls the code performs on it. `none` means the
sub-selector matched nothing. -/
structure ProductElement where
  name_text : Option String
  price_text : Option String
  rating_attr : Option String
  image_src : Option String
  description_text : Option String
  brand_text : Option String
  category_text : Option String
  link_href : Option String
  deriving Repr, DecidableEq, Inhabited

/-- One fetched page as the `parse` method observes it: the response URL,
the list of `.product-item` matches in document order, and the result of
the `.next-page::attr(href)` selector. -/
structure Page where
  url : String
  products : List ProductElement
  nextPageHref : Option String
  deriving Repr, DecidableEq

/-- The dictionary yielded for one product element. Each Python dict value
is an optional string; the `url` value is `some` of the `urljoin` result
(CPython `urljoin` always returns a string when the base is a string). -/
structure ProductRecord where
  name : Option String
  price : Option String
  rating : Option String
  image_url : Option String
  description : Option String
  brand : Option String
  category : Option String
  url : Option String
  deriving Repr, DecidableEq

/-- The dict built for one product element inside the `for` loop of
`parse`: each field is the corresponding sub-selector result, except `url`
which is `response.urljoin` of the product link href. -/
def parseRecord (base : String) (e : ProductElement) : ProductRecord :=
  { name := e.name_text
    price := e.price_text
    rating := e.rating_attr
    image_url := e.image_src
    description := e.description_text
    brand := e.brand_text
    category := e.category_text
    url := some (urljoin base e.link_href) }

/-- Everything one call of `parse` yields: the product records in document
order, then at most one pagination continuation URL. -/
structure ParseOutput where
  records : List ProductRecord
  continuation : Option String
  deriving Repr, DecidableEq

/-- The `parse` method of `BeautyProductSpider`: one record per
`.product-item` match, then `if next_page:` (Python truthiness, so `None`
and the empty string both fail) followed by `response.follow`, which
resolves the href against the response URL. -/
def parse (p : Page) : ParseOutput :=
  { records := p.products.map (parseRecord p.url)
    continuation :=
      match p.nextPageHref with
      | none => none
      | some s => if s = "" then none else some (urljoinStr p.url s) }

/-! ### Affiliate Linker (`AffiliateLinkGenerator`) -/

/-- Python `key in dict` membership test, for a dict modelled as an
association list in insertion order. -/
def dictContains (d : List (String × String)) (k : String) : Bool :=
  d.any (fun kv => kv.1 == k)

/-- Python `dict[key]` lookup as a partial operation: `none` is the
`KeyError` case. -/
def dictGet? (d : List (String × String)) (k : String) : Option String :=
  (d.find? (fun kv => kv.1 == k)).map (fun kv => kv.2)

/-- Python `c in s` membership test on a string. -/
def pyContains (s : String) (c : Char) : Bool :=
  s.data.contains c

/-- Number of occurrences of a character in a string. -/
def countChar (s : String) (c : Char) : Nat :=
  (s.data.filter (fun x => x == c)).length

/-- The `AffiliateLinkGenerator` instance state: its `affiliate_ids` dict. -/
structure AffiliateLinkGenerator where
  affiliate_ids : List (String × String)
  deriving Repr, DecidableEq

/-- The dict assigned by `AffiliateLinkGenerator.__init__`. -/
def defaultAffiliateIds : List (String × String) :=
  [("sephora", "your_sephora_affiliate_id"),
   ("amazon", "your_amazon_affiliate_id"),
   ("namshi", "your_namshi_affiliate_id")]

/-- `AffiliateLinkGenerator()`: construction per `__init__`. -/
def AffiliateLinkGenerator.init : AffiliateLinkGenerator :=
  { affiliate_ids := defaultAffiliateIds }

/-- The body of `generate_link`, statement by statement. The dict lookup
`self.affiliate_ids[platform]` is embedded as the partial `dictGet?`, with
its `KeyError` case surfaced as `Except.error`, so that totality is a
provable property rather than an assumption. -/
def AffiliateLinkGenerator.generate_link (self : AffiliateLinkGenerator)
    (platform product_url : String) : Except String String :=
  if ¬ dictContains self.affiliate_ids platform then
    .ok product_url
  else
    match dictGet? self.affiliate_ids platform with
    | none => .error "KeyError"
    | some affiliate_id =>
      if platform = "sephora" then
        let separator := if pyContains product_url '?' then "&" else "?"
        .ok (product_url ++ separator ++ "affiliate=" ++ affiliate_id)
      else if platform = "amazon" then
        .ok (product_url ++ "?tag=" ++ affiliate_id)
      else
        .ok product_url

/-- The default generator instance, as built in the example usage block. -/
def generator : AffiliateLinkGenerator := AffiliateLinkGenerator.init

/-- A method call in state-passing form: the body of `generate_link`
contains no assignment to `self`, so the post-state is the unchanged
receiver. -/
def AffiliateLinkGenerator.generate_link_call (self : AffiliateLinkGenerator)
    (platform product_url : String) : (Except String String) × AffiliateLinkGenerator :=
  (self.generate_link platform product_url, self)

/-- The instance state after a sequence of `generate_link` calls. -/
def callSeq (g : AffiliateLinkGenerator) (calls : List (String × String)) :
    AffiliateLinkGenerator :=
  calls.foldl (fun st c => (st.generate_link_call c.1 c.2).2) g

/-! ### Helper lemmas -/

theorem dictContains_eq_isSome (d : List (String × String)) (k : String) :
    dictContains d k = (dictGet? d k).isSome := by
  induction d with
  | nil => rfl
  | cons kv tl ih =>
    by_cases h : kv.1 == k
    · simp [dictContains, dictGet?, h]
    · simpa [dictContains, dictGet?, h] using ih

theorem str_append_assoc (a b c : String) : a ++ b ++ c = a ++ (b ++ c) := by
  apply String.ext
  simp [String.data_append, List.append_assoc]

theorem str_append_empty (a : String) : a ++ "" = a := by
  apply String.ext
  simp [String.data_append]

theorem countChar_append (a b : String) (c : Char) :
    countChar (a ++ b) c = countChar a c + countChar b c := by
  unfold countChar
  rw [String.data_append, List.filter_append, List.length_append]

theorem countChar_pos_of_pyContains (s : String) (c : Char)
    (h : pyContains s c = true) : 1 ≤ countChar s c := by
  unfold pyContains at h
  have hm : c ∈ s.data := by simpa using h
  have hf : c ∈ s.data.filter (fun x => x == c) :=
    List.mem_filter.mpr ⟨hm, by simp⟩
  exact List.length_pos_of_mem hf

theorem dictContains_default_cases (p : String)
    (h : dictContains defaultAffiliateIds p = true) :
    p = "sephora" ∨ p = "amazon" ∨ p = "namshi" := by
  simp [dictContains, defaultAffiliateIds] at h
  rcases h with h | h | h
  · exact Or.inl h.symm
  · exact Or.inr (Or.inl h.symm)
  · exact Or.inr (Or.inr h.symm)

/-! ### Claim theorems: Affiliate Linker -/

/-- C2: `generate_link` for the `amazon` platform appends the literal
suffix `?tag=` followed by the amazon affiliate id unconditionally, without
checking for a pre-existing question mark; when the input already contains
a question mark the result contains at least two of them. -/
theorem amazon_appends_tag_unconditionally (u : String) :
    generator.generate_link "amazon" u =
      .ok (u ++ "?tag=" ++ "your_amazon_affiliate_id") ∧
    (pyContains u '?' = true →
      2 ≤ countChar (u ++ "?tag=" ++ "your_amazon_affiliate_id") '?') := by
  constructor
  · rfl
  · intro h
    have h1 : 1 ≤ countChar u '?' := countChar_pos_of_pyContains u '?' h
    rw [countChar_append, countChar_append]
    have h2 : countChar "?tag=" '?' = 1 := by decide
    have h3 : countChar "your_amazon_affiliate_id" '?' = 0 := by decide
    omega

/-- C2 witness: a product URL that already carries a query string gets a
second question mark. -/
theorem amazon_appends_tag_witness :
    generator.generate_link "amazon" "https://amazon.ae/p/1?x=1" =
      .ok ("https://amazon.ae/p/1?x=1" ++ "?tag=" ++ "your_amazon_affiliate_id") ∧
    2 ≤ countChar ("https://amazon.ae/p/1?x=1" ++ "?tag=" ++ "your_amazon_affiliate_id") '?' :=
  ⟨(amazon_appends_tag_unconditionally "https://amazon.ae/p/1?x=1").1,
   (amazon_appends_tag_unconditionally "https://amazon.ae/p/1?x=1").2 (by rfl)⟩

/-- C3: `generate_link` for the `sephora` platform appends
`affiliate=<id>` using `&` as separator when the input already contains a
question mark anywhere and `?` otherwise, matching the two spec examples. -/
theorem sephora_appends_affiliate_param (u : String) :
    generator.generate_link "sephora" u =
      .ok (u ++ (if pyContains u '?' then "&" else "?") ++ "affiliate=" ++
        "your_sephora_affiliate_id") ∧
    generator.generate_link "sephora" "https://sephora.com/p/1" =
      .ok "https://sephora.com/p/1?affiliate=your_sephora_affiliate_id" ∧
    generator.generate_link "sephora" "https://sephora.com/p/1?color=red" =
      .ok "https://sephora.com/p/1?color=red&affiliate=your_sephora_affiliate_id" :=
  ⟨rfl, rfl, rfl⟩

/-- C4: a platform that is none of the three table keys leaves the product
URL unchanged. -/
theorem unknown_platform_identity (p u : String)
    (h1 : p ≠ "sephora") (h2 : p ≠ "amazon") (h3 : p ≠ "namshi") :
    generator.generate_link p u = .ok u := by
  have hc : dictContains generator.affiliate_ids p = false := by
    simp [dictContains, generator, AffiliateLinkGenerator.init, defaultAffiliateIds]
    exact ⟨fun e => h1 e.symm, fun e => h2 e.symm, fun e => h3 e.symm⟩
  unfold AffiliateLinkGenerator.generate_link
  rw [hc]
  simp

/-- C4 witness: the spec example with platform `unknown`. -/
theorem unknown_platform_identity_witness :
    generator.generate_link "unknown" "https://x.com/p/1" = .ok "https://x.com/p/1" :=
  unknown_platform_identity "unknown" "https://x.com/p/1"
    (by decide) (by decide) (by decide)

/-- C5: `namshi` is a table key with an affiliate id on file, yet
`generate_link` returns the URL unchanged; the same holds for every table
key other than `sephora` and `amazon`. -/
theorem namshi_and_unhandled_keys_identity :
    (∀ u, generator.generate_link "namshi" u = .ok u) ∧
    dictGet? generator.affiliate_ids "namshi" = some "your_namshi_affiliate_id" ∧
    (∀ p u, dictContains generator.affiliate_ids p = true →
      p ≠ "sephora" → p ≠ "amazon" → generator.generate_link p u = .ok u) := by
  refine ⟨fun u => rfl, rfl, fun p u hc h1 h2 => ?_⟩
  have hs : (dictGet? generator.affiliate_ids p).isSome := by
    rw [← dictContains_eq_isSome]; exact hc
  obtain ⟨v, hv⟩ := Option.isSome_iff_exists.mp hs
  unfold AffiliateLinkGenerator.generate_link
  rw [hc, hv]
  simp [h1, h2]

/-- C5 witness: the `namshi` case exercised through the general
unhandled-key branch. -/
theorem namshi_identity_witness :
    generator.generate_link "namshi" "https://namshi.com/p/1" =
      .ok "https://namshi.com/p/1" :=
  namshi_and_unhandled_keys_identity.2.2 "namshi" "https://namshi.com/p/1"
    (by rfl) (by decide) (by decide)

/-- C6: `generate_link` is total: for every platform and URL it returns a
URL string, never the `KeyError` branch of the embedded dict lookup. -/
theorem generate_link_total (p u : String) :
    ∃ r : String, generator.generate_link p u = .ok r := by
  unfold AffiliateLinkGenerator.generate_link
  by_cases hc : dictContains generator.affiliate_ids p
  · have hs : (dictGet? generator.affiliate_ids p).isSome := by
      rw [← dictContains_eq_isSome]; exact hc
    obtain ⟨v, hv⟩ := Option.isSome_iff_exists.mp hs
    rw [hc, hv]
    by_cases h1 : p = "sephora"
    · exact ⟨u ++ (if pyContains u '?' then "&" else "?") ++ "affiliate=" ++ v,
        by simp [h1]⟩
    · by_cases h2 : p = "amazon"
      · exact ⟨u ++ "?tag=" ++ v, by simp [h1, h2]⟩
      · exact ⟨u, by simp [h1, h2]⟩
  · exact ⟨u, by simp [hc]⟩

/-- C9: the `affiliate_ids` table is fixed at construction: any sequence
of `generate_link` calls leaves the instance state, hence the mapping
established by `__init__`, unchanged. -/
theorem affiliate_ids_immutable (g : AffiliateLinkGenerator)
    (calls : List (String × String)) :
    callSeq g calls = g ∧
    (callSeq AffiliateLinkGenerator.init calls).affiliate_ids = defaultAffiliateIds := by
  have h : ∀ g0 : AffiliateLinkGenerator, callSeq g0 calls = g0 := by
    intro g0
    induction calls generalizing g0 with
    | nil => rfl
    | cons c tl ih => simpa [callSeq, List.foldl] using ih _
  exact ⟨h g, by rw [h AffiliateLinkGenerator.init]; rfl⟩

/-- C10: the result of `generate_link` always extends the input URL by an
appended suffix (possibly empty); no character of the input is removed or
altered. -/
theorem generate_link_extends_input (p u : String) :
    ∃ s : String, generator.generate_link p u = .ok (u ++ s) := by
  by_cases hc : dictContains generator.affiliate_ids p
  · rcases dictContains_default_cases p hc with h | h | h
    · subst h
      refine ⟨(if pyContains u '?' then "&" else "?") ++ "affiliate=" ++
        "your_sephora_affiliate_id", ?_⟩
      show Except.ok (u ++ _ ++ "affiliate=" ++ "your_sephora_affiliate_id") = _
      rw [str_append_assoc, str_append_assoc, str_append_assoc]
    · subst h
      exact ⟨"?tag=" ++ "your_amazon_affiliate_id", by
        show Except.ok (u ++ "?tag=" ++ "your_amazon_affiliate_id") = _
        rw [str_append_assoc]⟩
    · subst h
      exact ⟨"", by rw [str_append_empty]; rfl⟩
  · refine ⟨"", ?_⟩
    rw [str_append_empty]
    unfold AffiliateLinkGenerator.generate_link
    rw [eq_false_of_ne_true hc]
    simp

/-! ### Claim theorems: Extractor -/

/-- A page whose single product element matches every sub-selector except
the product link: `link_href` is `none`. -/
def hrefMissingPage : Page :=
  { url := "https://example-beauty-site.com/products"
    products := [{ name_text := some "Lipstick", price_text := some "9.99",
                   rating_attr := some "4.5", image_src := some "/img/1.png",
                   description_text := some "matte finish", brand_text := some "BrandX",
                   category_text := some "lips", link_href := none }]
    nextPageHref := none }

/-- C1 counterexample: with the product link sub-selector matching nothing,
the yielded record still carries a `url` value, namely the base URL,
because CPython `urljoin(base, None)` returns the base; the field is not
absent as the claim states. -/
theorem url_field_not_absent_counterexample :
    hrefMissingPage.products.map (fun e => e.link_href) = [none] ∧
    (parse hrefMissingPage).records.map (fun r => r.url) =
      [some "https://example-beauty-site.com/products"] ∧
    (parse hrefMissingPage).records.map (fun r => r.url) ≠ [none] :=
  ⟨rfl, rfl, by decide⟩

/-- C1 (amended): a missing sub-selector degrades each of the seven
text/attribute fields to absent without affecting any other field, with no
exception and with every other product element still extracted; the `url`
field alone degrades to the base URL instead of absence when the product
link href is missing. -/
theorem missing_field_degrades (base : String) (e : ProductElement)
    (hhref : e.link_href = none) :
    (parseRecord base e).name = e.name_text ∧
    (parseRecord base e).price = e.price_text ∧
    (parseRecord base e).rating = e.rating_attr ∧
    (parseRecord base e).image_url = e.image_src ∧
    (parseRecord base e).description = e.description_text ∧
    (parseRecord base e).brand = e.brand_text ∧
    (parseRecord base e).category = e.category_text ∧
    (parseRecord base e).url = some base ∧
    ∀ p : Page, (parse p).records = p.products.map (parseRecord p.url) := by
  refine ⟨rfl, rfl, rfl, rfl, rfl, rfl, rfl, ?_, fun p => rfl⟩
  simp [parseRecord, urljoin, hhref]

/-- C1 witness: the amended statement at the concrete page above. -/
theorem missing_field_degrades_witness :
    (parseRecord hrefMissingPage.url
        (hrefMissingPage.products.headD default)).url =
      some "https://example-beauty-site.com/products" ∧
    (parseRecord hrefMissingPage.url
        (hrefMissingPage.products.headD default)).name = some "Lipstick" :=
  ⟨(missing_field_degrades hrefMissingPage.url
      (hrefMissingPage.products.headD default) rfl).2.2.2.2.2.2.2.1,
   (missing_field_degrades hrefMissingPage.url
      (hrefMissingPage.products.headD default) rfl).1⟩

/-- A page whose pagination element is present with an empty href
attribute: the `.next-page::attr(href)` selector yields the empty string. -/
def emptyHrefPage : Page :=
  { url := "https://example-beauty-site.com/products"
    products := []
    nextPageHref := some "" }

/-- C7 counterexample: the pagination element is present (its href
attribute selects the empty string), yet `if next_page:` is falsy in
Python, so no continuation is signalled even though the claim requires one
for the resolved URL. -/
theorem pagination_empty_href_counterexample :
    emptyHrefPage.nextPageHref = some "" ∧
    (parse emptyHrefPage).continuation = none ∧
    (parse emptyHrefPage).continuation ≠
      some (urljoin emptyHrefPage.url emptyHrefPage.nextPageHref) :=
  ⟨rfl, rfl, by decide⟩

/-- C7 (amended): at most one continuation per page; a pagination selector
yielding a non-empty href signals exactly one continuation for the href
resolved against the base URL, while an absent match or an empty href
signals none; the spec example `/page/2` resolves as stated. -/
theorem pagination_continuation (p : Page) :
    (p.nextPageHref = none → (parse p).continuation = none) ∧
    (p.nextPageHref = some "" → (parse p).continuation = none) ∧
    (∀ s, p.nextPageHref = some s → s ≠ "" →
      (parse p).continuation = some (urljoinStr p.url s)) ∧
    urljoinStr "https://example-beauty-site.com/products" "/page/2" =
      "https://example-beauty-site.com/page/2" := by
  refine ⟨fun h => ?_, fun h => ?_, fun s hs hne => ?_, by decide⟩
  · simp [parse, h]
  · simp [parse, h]
  · simp [parse, hs, hne]

/-- The page used to exercise the pagination continuation. -/
def nextPage2 : Page :=
  { url := "https://example-beauty-site.com/products"
    products := []
    nextPageHref := some "/page/2" }

/-- C7 witness: a concrete page whose pagination href `/page/2` is
followed to the resolved absolute URL. -/
theorem pagination_continuation_witness :
    (parse nextPage2).continuation = some "https://example-beauty-site.com/page/2" := by
  have h := (pagination_continuation nextPage2).2.2.1 "/page/2" rfl (by decide)
  rw [h]
  exact congrArg some (pagination_continuation nextPage2).2.2.2

/-- C8: `parse` yields one record per matched product element, in document
order, and an element on which all eight sub-selectors match produces a
record whose eight fields hold exactly the selected values, the `url`
field resolved against the base URL. -/
theorem records_in_order_all_fields (p : Page) (n pr ra im d b c l : String)
    (e : ProductElement)
    (he : e = { name_text := some n, price_text := some pr, rating_attr := some ra,
                image_src := some im, description_text := some d,
                brand_text := some b, category_text := some c,
                link_href := some l }) :
    (parse p).records = p.products.map (parseRecord p.url) ∧
    parseRecord p.url e =
      { name := some n, price := some pr, rating := some ra,
        image_url := some im, description := some d, brand := some b,
        category := some c, url := some (urljoinStr p.url l) } := by
  subst he
  exact ⟨rfl, rfl⟩

/-- A product element on which all eight sub-selectors match. -/
def fullElem : ProductElement :=
  { name_text := some "Lipstick", price_text := some "9.99",
    rating_attr := some "4.5", image_src := some "/img/1.png",
    description_text := some "matte finish", brand_text := some "BrandX",
    category_text := some "lips", link_href := some "/p/lipstick-123" }

/-- A page holding the fully matched element. -/
def fullPage : Page :=
  { url := "https://example-beauty-site.com/products"
    products := [fullElem]
    nextPageHref := none }

/-- C8 witness: the fully matched element yields the eight populated
fields, with the relative product link resolved to an absolute URL. -/
theorem records_in_order_all_fields_witness :
    (parse fullPage).records = fullPage.products.map (parseRecord fullPage.url) ∧
    parseRecord fullPage.url fullElem =
      { name := some "Lipstick", price := some "9.99", rating := some "4.5",
        image_url := some "/img/1.png", description := some "matte finish",
        brand := some "BrandX", category := some "lips",
        url := some "https://example-beauty-site.com/p/lipstick-123" } := by
  have h := records_in_order_all_fields fullPage "Lipstick" "9.99" "4.5"
    "/img/1.png" "matte finish" "BrandX" "lips" "/p/lipstick-123" fullElem rfl
  exact ⟨h.1, h.2.trans (by decide)⟩

end Glamify
